import Mathlib

/-!
Verification of the TailingsIQ Railway API gateway (src/main.py) against its
natural-language specification.

Shallow embedding conventions:
- The MongoDB document store (`database.facilities`, `database.documents`,
  `database.monitoring`, `database.assessments`) is modelled as a `Store` of
  lists held in insertion order; `insert_one` appends to the relevant list.
- Wall-clock time (`time.time()`) is passed explicitly as a `now : Int`
  parameter; Python float timestamps are modelled as integer seconds, which
  is faithful for every comparison and whole-second constant the handlers use.
- `Dict[str, Any]` sensor readings are modelled as association lists from
  sensor name to an integer value; no handler ever inspects the values.
- A raised `HTTPException(status_code, detail)` is modelled as the error side
  of an `Except HTTPExc`; a handler's `try ... except Exception as e: raise
  HTTPException(400, str(e))` wrapper is `catch400`, using starlette's
  `HTTPException.__str__`, which renders as "<status_code>: <detail>".
-/

namespace Tailings

/-- A facility document as stored in `database.facilities` (fields of
`FacilityCreate` plus the server-assigned id and creation time). -/
structure FacilityDoc where
  id : String
  name : String
  type : String
  locatedAt : String
  owner : String
  status : String
  created_at : Int
  deriving DecidableEq

/-- A document record as stored in `database.documents`. -/
structure DocumentDoc where
  id : String
  name : String
  type : String
  facility_id : String
  content : String
  created_at : Int
  deriving DecidableEq

/-- The `MonitoringData` request body model (src/main.py lines 73-76):
`facility_id`, `timestamp`, and a free-form readings mapping. -/
structure MonitoringData where
  facility_id : String
  timestamp : Int
  readings : List (String × Int)
  deriving DecidableEq

/-- A monitoring document as persisted by `add_monitoring_data`
(src/main.py lines 274-279). -/
structure MonitoringDoc where
  facility_id : String
  timestamp : Int
  readings : List (String × Int)
  created_at : Int
  deriving DecidableEq

/-- One entry of the hard-coded `risk_factors` list in `assess_facility_risk`
(src/main.py lines 302-305). -/
structure RiskFactor where
  category : String
  severity : String
  description : String
  deriving DecidableEq

/-- The assessment dictionary built by `assess_facility_risk`
(src/main.py lines 295-311). -/
structure Assessment where
  facility_id : String
  assessment_id : String
  timestamp : Int
  overall_risk_level : String
  risk_score : Int
  summary : String
  risk_factors : List RiskFactor
  recommendations : List String
  deriving DecidableEq

/-- The four MongoDB collections the handlers touch, each a list in
insertion order (`insert_one` appends at the end). -/
structure Store where
  facilities : List FacilityDoc
  documents : List DocumentDoc
  monitoring : List MonitoringDoc
  assessments : List Assessment
  deriving DecidableEq

/-- The empty database. -/
def emptyStore : Store := ⟨[], [], [], []⟩

/-- `fastapi.HTTPException` reduced to the two fields the handlers set. -/
structure HTTPExc where
  status_code : Nat
  detail : String
  deriving DecidableEq

/-- starlette's `HTTPException.__str__`: renders as
"<status_code>: <detail>". -/
def strOfHTTPExc (e : HTTPExc) : String :=
  toString e.status_code ++ ": " ++ e.detail

/-- The `try ... except Exception as e: raise HTTPException(status_code=400,
detail=str(e))` wrapper every handler ends with: any exception escaping the
body - including an `HTTPException` raised inside it, since fastapi's
`HTTPException` subclasses `Exception` - is re-raised as a 400 whose detail
is the string of the original exception. -/
def catch400 {α : Type} : Except HTTPExc α → Except HTTPExc α
  | .ok a => .ok a
  | .error e => .error ⟨400, strOfHTTPExc e⟩

/-- Result of the `/token` endpoint. -/
inductive TokenResult where
  | token (access_token token_type : String)
  | httpError (e : HTTPExc)
  deriving DecidableEq

/-- `login_for_access_token` (src/main.py lines 112-124): returns the demo
token exactly when the form credentials are the hard-coded pair
("demo", "demo"); otherwise raises HTTP 401. -/
def login_for_access_token (username password : String) : TokenResult :=
  if username == "demo" && password == "demo" then
    .token "demo_token_12345" "bearer"
  else
    .httpError ⟨401, "Incorrect username or password"⟩

/-- Body of the `try` block of `get_facility` (src/main.py lines 180-188):
`find_one` on the facilities collection by id; raises HTTP 404 when no
document matches. -/
def get_facility_try (facility_id : String) (s : Store) :
    Except HTTPExc FacilityDoc :=
  match s.facilities.find? (fun f => f.id == facility_id) with
  | some f => .ok f
  | none => .error ⟨404, "Facility not found"⟩

/-- `get_facility` (src/main.py lines 174-190): the `try` body wrapped in the
generic `except Exception` clause. -/
def get_facility (facility_id : String) (s : Store) :
    Except HTTPExc FacilityDoc :=
  catch400 (get_facility_try facility_id s)

/-- Body of the `try` block of `get_document` (src/main.py lines 218-226). -/
def get_document_try (document_id : String) (s : Store) :
    Except HTTPExc DocumentDoc :=
  match s.documents.find? (fun d => d.id == document_id) with
  | some d => .ok d
  | none => .error ⟨404, "Document not found"⟩

/-- `get_document` (src/main.py lines 212-228): the `try` body wrapped in the
generic `except Exception` clause. -/
def get_document (document_id : String) (s : Store) :
    Except HTTPExc DocumentDoc :=
  catch400 (get_document_try document_id s)

/-- Python truthiness of the optional float query parameters of
`get_monitoring_data`: `if not start_time` treats both `None` and `0.0` as
absent. -/
def falsyOpt : Option Int → Bool
  | none => true
  | some t => t == 0

/-- Seven days in seconds, the default lookback of `get_monitoring_data`
(src/main.py line 241: `7 * 24 * 60 * 60`). -/
def sevenDays : Int := 7 * 24 * 60 * 60

/-- The JSON object returned by `get_monitoring_data`
(src/main.py lines 257-262). -/
structure MonitoringResponse where
  facility_id : String
  start_time : Int
  end_time : Int
  readings : List MonitoringDoc
  deriving DecidableEq

/-- `get_monitoring_data` (src/main.py lines 231-264): defaults falsy bounds
to `now - 7 days` and `now`, then runs `database.monitoring.find` with an
equality filter on `facility_id` and a `$gte`/`$lte` range on `timestamp`.
The cursor is consumed in natural (insertion) order: the handler applies no
sort. -/
def get_monitoring_data (facility_id : String)
    (start_time end_time : Option Int) (now : Int) (s : Store) :
    MonitoringResponse :=
  let st := if falsyOpt start_time then now - sevenDays else start_time.getD 0
  let et := if falsyOpt end_time then now else end_time.getD 0
  let rs := s.monitoring.filter (fun d =>
    d.facility_id == facility_id &&
    decide (st ≤ d.timestamp) && decide (d.timestamp ≤ et))
  { facility_id := facility_id, start_time := st, end_time := et,
    readings := rs }

/-- `add_monitoring_data` (src/main.py lines 266-284): builds the monitoring
document from the path parameter `facility_id`, the body's `timestamp` and
`readings`, and the server clock, then unconditionally inserts it into
`database.monitoring`. No validation of any kind is performed: neither the
timestamp nor the facility is checked, and the body's own `facility_id`
field is never read. -/
def add_monitoring_data (facility_id : String) (data : MonitoringData)
    (now : Int) (s : Store) : MonitoringDoc × Store :=
  let doc : MonitoringDoc :=
    { facility_id := facility_id, timestamp := data.timestamp,
      readings := data.readings, created_at := now }
  (doc, { s with monitoring := s.monitoring ++ [doc] })

/-- `assess_facility_risk` (src/main.py lines 287-319): builds a hard-coded
assessment dictionary - the only inputs it reads are the path parameter and
the wall clock (`assessment_id` embeds `int(time.time())` and `timestamp`
is `time.time()`) - and inserts it into `database.assessments`. It never
queries the monitoring collection or the facility record. -/
def assess_facility_risk (facility_id : String) (now : Int) (s : Store) :
    Assessment × Store :=
  let a : Assessment :=
    { facility_id := facility_id,
      assessment_id := "assessment_" ++ toString now,
      timestamp := now,
      overall_risk_level := "medium",
      risk_score := 65,
      summary := "Automated risk assessment completed",
      risk_factors :=
        [⟨"structural", "medium", "Foundation stability"⟩,
         ⟨"environmental", "low", "Water quality impact"⟩],
      recommendations :=
        ["Increase monitoring frequency",
         "Schedule structural inspection",
         "Review environmental controls"] }
  (a, { s with assessments := s.assessments ++ [a] })

/-- The five-minute skew of the spec, in seconds; used only to phrase claim
hypotheses (the handlers themselves never mention it). -/
def fiveMinutes : Int := 300

/-- Modelled from the spec: the risk-level bands derived from a score by the
fixed thresholds - low below 34, medium from 34 to 66, high above 66. -/
def specRiskBand (score : Int) : String :=
  if score < 34 then "low" else if score ≤ 66 then "medium" else "high"

/-- A store whose only facility is decommissioned. -/
def decommissionedStore : Store :=
  { facilities := [⟨"F1", "North Dam", "tailings-dam", "Site A", "Acme",
      "decommissioned", 0⟩],
    documents := [], monitoring := [], assessments := [] }

/-- A store holding two monitoring readings for facility F1 ingested out of
timestamp order: reading timestamps 200 then 100. -/
def outOfOrderStore : Store :=
  { facilities := [], documents := [],
    monitoring := [⟨"F1", 200, [("pore-pressure", 10)], 10⟩,
                   ⟨"F1", 100, [("pore-pressure", 12)], 11⟩],
    assessments := [] }

/-- Claim C1, counterexample: a reading timestamped 10 minutes (600 s) in the
future relative to ingestion time is not rejected - `add_monitoring_data`
inserts it, and the monitoring store does show a new entry for it. -/
theorem C1_counterexample :
    ((Tailings.add_monitoring_data "F1"
        ⟨"F1", 1600, [("pore-pressure", 10)]⟩ 1000
        Tailings.emptyStore).2).monitoring =
      [⟨"F1", 1600, [("pore-pressure", 10)], 1000⟩] := rfl

/-- Claim C1, amended: `add_monitoring_data` performs no timestamp
validation - even a reading more than 5 minutes in the future is admitted
and appended to the monitoring store; no TimestampOutOfBounds rejection
exists in the code. -/
theorem C1_future_reading_admitted (fid : String)
    (d : Tailings.MonitoringData) (now : Int) (s : Tailings.Store)
    (h : d.timestamp > now + Tailings.fiveMinutes) :
    (Tailings.add_monitoring_data fid d now s).2.monitoring =
      s.monitoring ++
        [{ facility_id := fid, timestamp := d.timestamp,
           readings := d.readings, created_at := now }] := rfl

/-- Witness for C1: a concrete reading 10 minutes in the future. -/
theorem C1_witness :
    ((1600 : Int) > 1000 + Tailings.fiveMinutes) ∧
    (Tailings.add_monitoring_data "F1" ⟨"F1", 1600, []⟩ 1000
        Tailings.emptyStore).2.monitoring =
      Tailings.emptyStore.monitoring ++ [⟨"F1", 1600, [], 1000⟩] :=
  ⟨by decide,
   C1_future_reading_admitted "F1" ⟨"F1", 1600, []⟩ 1000 Tailings.emptyStore
     (by decide)⟩

/-- Claim C2, counterexample: with an empty monitoring store (so the reading
window of facility F1 is empty), the risk assessment still carries the
numeric risk score 65 - no degraded, data-insufficient assessment is
produced (the assessment record has no such marker at all). -/
theorem C2_counterexample :
    Tailings.emptyStore.monitoring.filter
        (fun d => d.facility_id == "F1") = [] ∧
    (Tailings.assess_facility_risk "F1" 0 Tailings.emptyStore).1.risk_score
      = 65 := ⟨rfl, rfl⟩

/-- Claim C2, amended: on an empty reading window `assess_facility_risk`
still returns the fixed numeric risk score 65 with level "medium"; it
carries no data-insufficient marker (the score is indeed never 0, but only
because it is always 65). -/
theorem C2_empty_window_still_scored (fid : String) (now : Int)
    (s : Tailings.Store)
    (h : s.monitoring.filter (fun d => d.facility_id == fid) = []) :
    (Tailings.assess_facility_risk fid now s).1.risk_score = 65 ∧
    (Tailings.assess_facility_risk fid now s).1.overall_risk_level
      = "medium" := ⟨rfl, rfl⟩

/-- Witness for C2: the empty store has an empty window for F1. -/
theorem C2_witness :
    (Tailings.assess_facility_risk "F1" 7 Tailings.emptyStore).1.risk_score
      = 65 ∧
    (Tailings.assess_facility_risk "F1" 7
        Tailings.emptyStore).1.overall_risk_level = "medium" :=
  C2_empty_window_still_scored "F1" 7 Tailings.emptyStore rfl

/-- Claim C3, counterexample: two calls with identical facility metadata and
identical (empty) reading sets, made at clock seconds 0 and 1, produce
different assessment identifiers ("assessment_0" vs "assessment_1"), so the
runs are not identical up to the evaluation timestamp alone. -/
theorem C3_counterexample :
    (Tailings.assess_facility_risk "F1" 0
        Tailings.emptyStore).1.assessment_id ≠
    (Tailings.assess_facility_risk "F1" 1
        Tailings.emptyStore).1.assessment_id := by decide

/-- Claim C3, amended: `assess_facility_risk` is deterministic except for the
evaluation timestamp AND the assessment identifier, both of which are
derived from the wall clock: for any two calls on the same facility, all
other fields (facility id, risk level, score, summary, factors,
recommendations) are equal, regardless of the stores and clock readings. -/
theorem C3_deterministic_except_clock_fields (fid : String)
    (now1 now2 : Int) (s1 s2 : Tailings.Store) :
    (Tailings.assess_facility_risk fid now1 s1).1.facility_id =
      (Tailings.assess_facility_risk fid now2 s2).1.facility_id ∧
    (Tailings.assess_facility_risk fid now1 s1).1.overall_risk_level =
      (Tailings.assess_facility_risk fid now2 s2).1.overall_risk_level ∧
    (Tailings.assess_facility_risk fid now1 s1).1.risk_score =
      (Tailings.assess_facility_risk fid now2 s2).1.risk_score ∧
    (Tailings.assess_facility_risk fid now1 s1).1.summary =
      (Tailings.assess_facility_risk fid now2 s2).1.summary ∧
    (Tailings.assess_facility_risk fid now1 s1).1.risk_factors =
      (Tailings.assess_facility_risk fid now2 s2).1.risk_factors ∧
    (Tailings.assess_facility_risk fid now1 s1).1.recommendations =
      (Tailings.assess_facility_risk fid now2 s2).1.recommendations :=
  ⟨rfl, rfl, rfl, rfl, rfl, rfl⟩

/-- Claim C4, counterexample: the store's only facility F1 has status
"decommissioned", yet a reading for F1 is admitted and appended to the
monitoring store rather than being rejected. -/
theorem C4_counterexample :
    (Tailings.decommissionedStore.facilities.find?
        (fun f => f.id == "F1")).map (fun f => f.status) =
      some "decommissioned" ∧
    (Tailings.add_monitoring_data "F1" ⟨"F1", 100, []⟩ 0
        Tailings.decommissionedStore).2.monitoring =
      [⟨"F1", 100, [], 0⟩] := ⟨rfl, rfl⟩

/-- Claim C4, amended: `add_monitoring_data` performs no facility lookup at
all - a reading is admitted and stored for any facility identifier, even
when every facility with that id is decommissioned (or no facility with
that id exists); no UnknownOrInactiveFacility rejection exists in the
code. -/
theorem C4_no_facility_check (fid : String) (d : Tailings.MonitoringData)
    (now : Int) (s : Tailings.Store)
    (h : ∀ f ∈ s.facilities, f.id = fid → f.status = "decommissioned") :
    (Tailings.add_monitoring_data fid d now s).2.monitoring =
      s.monitoring ++
        [{ facility_id := fid, timestamp := d.timestamp,
           readings := d.readings, created_at := now }] := rfl

/-- Witness for C4: the decommissioned-only store. -/
theorem C4_witness :
    (∀ f ∈ Tailings.decommissionedStore.facilities,
        f.id = "F1" → f.status = "decommissioned") ∧
    (Tailings.add_monitoring_data "F1" ⟨"F1", 100, []⟩ 0
        Tailings.decommissionedStore).2.monitoring =
      Tailings.decommissionedStore.monitoring ++ [⟨"F1", 100, [], 0⟩] :=
  ⟨by decide,
   C4_no_facility_check "F1" ⟨"F1", 100, []⟩ 0 Tailings.decommissionedStore
     (by decide)⟩

/-- Claim C5: for every facility identifier, clock reading and store state,
the risk-assessment handler returns the hard-coded payload: risk level
"medium", risk score 65, and the fixed risk-factor and recommendation
lists, independent of the facility's readings and metadata. -/
theorem C5_static_payload (fid : String) (now : Int) (s : Tailings.Store) :
    (Tailings.assess_facility_risk fid now s).1.overall_risk_level
      = "medium" ∧
    (Tailings.assess_facility_risk fid now s).1.risk_score = 65 ∧
    (Tailings.assess_facility_risk fid now s).1.risk_factors =
      [⟨"structural", "medium", "Foundation stability"⟩,
       ⟨"environmental", "low", "Water quality impact"⟩] ∧
    (Tailings.assess_facility_risk fid now s).1.recommendations =
      ["Increase monitoring frequency",
       "Schedule structural inspection",
       "Review environmental controls"] := ⟨rfl, rfl, rfl, rfl⟩

/-- Claim C6: the token endpoint issues the access token exactly for the
hard-coded credential pair ("demo", "demo"); every other pair yields HTTP
401 Unauthorized and no token. -/
theorem C6_hardcoded_credentials (u p : String) :
    (Tailings.login_for_access_token u p =
        Tailings.TokenResult.token "demo_token_12345" "bearer" ↔
      u = "demo" ∧ p = "demo") ∧
    (¬(u = "demo" ∧ p = "demo") →
      Tailings.login_for_access_token u p =
        Tailings.TokenResult.httpError
          ⟨401, "Incorrect username or password"⟩) := by
  unfold Tailings.login_for_access_token
  by_cases hu : u = "demo" <;> by_cases hp : p = "demo" <;>
    simp [hu, hp]

/-- Witness for C6: a wrong credential pair is refused with 401. -/
theorem C6_witness :
    Tailings.login_for_access_token "alice" "hunter2" =
      Tailings.TokenResult.httpError
        ⟨401, "Incorrect username or password"⟩ :=
  (C6_hardcoded_credentials "alice" "hunter2").2 (by decide)

/-- Claim C7: every assessment the program returns is band-consistent - its
risk score is in 0-100 and its risk level equals the band the spec's fixed
thresholds derive from that score (low below 34, medium 34-66, high above
66). -/
theorem C7_band_consistent (fid : String) (now : Int) (s : Tailings.Store) :
    0 ≤ (Tailings.assess_facility_risk fid now s).1.risk_score ∧
    (Tailings.assess_facility_risk fid now s).1.risk_score ≤ 100 ∧
    (Tailings.assess_facility_risk fid now s).1.overall_risk_level =
      Tailings.specRiskBand
        (Tailings.assess_facility_risk fid now s).1.risk_score := by
  refine ⟨?_, ?_, ?_⟩
  · show (0 : Int) ≤ 65
    norm_num
  · show (65 : Int) ≤ 100
    norm_num
  · show "medium" = Tailings.specRiskBand 65
    decide

/-- Claim C8, counterexample: two readings for F1 ingested out of timestamp
order (200 then 100), both inside the query window, are returned in
ingestion order [200, 100] - not ascending by reading timestamp. -/
theorem C8_counterexample :
    (Tailings.get_monitoring_data "F1" (some 50) (some 1000) 500
        Tailings.outOfOrderStore).readings.map (fun d => d.timestamp) =
      [200, 100] ∧
    ¬ List.Sorted (· ≤ ·) [(200 : Int), 100] := ⟨rfl, by decide⟩

/-- Claim C8, amended: for non-falsy window bounds the monitoring query
returns exactly the stored readings for the facility whose timestamps lie
in the window, but in insertion (ingestion) order - the handler applies no
sort, so readings ingested out of timestamp order stay out of timestamp
order. -/
theorem C8_window_query_insertion_order (fid : String) (s0 e0 now : Int)
    (st : Tailings.Store) (hs : s0 ≠ 0) (he : e0 ≠ 0) :
    (∀ d : Tailings.MonitoringDoc,
        d ∈ (Tailings.get_monitoring_data fid (some s0) (some e0) now
              st).readings ↔
          (d ∈ st.monitoring ∧ d.facility_id = fid ∧
           s0 ≤ d.timestamp ∧ d.timestamp ≤ e0)) ∧
    List.Sublist
      (Tailings.get_monitoring_data fid (some s0) (some e0) now st).readings
      st.monitoring := by
  have hs' : (s0 == 0) = false := by simpa using hs
  have he' : (e0 == 0) = false := by simpa using he
  constructor
  · intro d
    simp [Tailings.get_monitoring_data, Tailings.falsyOpt, hs', he',
      List.mem_filter, and_assoc]
  · simpa [Tailings.get_monitoring_data, Tailings.falsyOpt, hs', he']
      using List.filter_sublist (l := st.monitoring)
      (p := fun d => d.facility_id == fid &&
        decide (s0 ≤ d.timestamp) && decide (d.timestamp ≤ e0))

/-- Witness for C8: the out-of-order store, window [50, 1000]. -/
theorem C8_witness :
    List.Sublist
      (Tailings.get_monitoring_data "F1" (some 50) (some 1000) 500
        Tailings.outOfOrderStore).readings
      Tailings.outOfOrderStore.monitoring :=
  (C8_window_query_insertion_order "F1" 50 1000 500
    Tailings.outOfOrderStore (by decide) (by decide)).2

/-- Claim C9: when a facility or document lookup finds no matching record,
the handler responds with HTTP 400, not 404 - the 404 raised inside the
try block is caught by the generic except clause and re-raised as a 400
whose detail is the string of the 404 exception. -/
theorem C9_notfound_maps_to_400 (facility_id document_id : String)
    (s : Tailings.Store)
    (hf : s.facilities.find? (fun f => f.id == facility_id) = none)
    (hd : s.documents.find? (fun d => d.id == document_id) = none) :
    Tailings.get_facility facility_id s =
      .error ⟨400, Tailings.strOfHTTPExc ⟨404, "Facility not found"⟩⟩ ∧
    Tailings.get_document document_id s =
      .error ⟨400, Tailings.strOfHTTPExc ⟨404, "Document not found"⟩⟩ := by
  unfold Tailings.get_facility Tailings.get_document
    Tailings.get_facility_try Tailings.get_document_try
  rw [hf, hd]
  exact ⟨rfl, rfl⟩

/-- Witness for C9: lookups on the empty store yield the wrapped 400s, whose
detail strings are "404: Facility not found" and "404: Document not
found". -/
theorem C9_witness :
    Tailings.get_facility "F9" Tailings.emptyStore =
      .error ⟨400, "404: Facility not found"⟩ ∧
    Tailings.get_document "D9" Tailings.emptyStore =
      .error ⟨400, "404: Document not found"⟩ :=
  C9_notfound_maps_to_400 "F9" "D9" Tailings.emptyStore rfl rfl

/-- Claim C10: the facility identifier persisted with a monitoring reading
is always the path parameter; the `facility_id` inside the request body is
ignored, so even when the two differ, the stored document carries the path
parameter. -/
theorem C10_path_param_wins (path_fid : String)
    (d : Tailings.MonitoringData) (now : Int) (s : Tailings.Store)
    (h : d.facility_id ≠ path_fid) :
    (Tailings.add_monitoring_data path_fid d now s).1.facility_id =
      path_fid ∧
    (Tailings.add_monitoring_data path_fid d now s).2.monitoring =
      s.monitoring ++
        [{ facility_id := path_fid, timestamp := d.timestamp,
           readings := d.readings, created_at := now }] := ⟨rfl, rfl⟩

/-- Witness for C10: body names facility "OTHER", path names "F1"; the
stored document carries "F1". -/
theorem C10_witness :
    (Tailings.add_monitoring_data "F1" ⟨"OTHER", 5, []⟩ 9
        Tailings.emptyStore).1.facility_id = "F1" ∧
    (Tailings.add_monitoring_data "F1" ⟨"OTHER", 5, []⟩ 9
        Tailings.emptyStore).2.monitoring =
      Tailings.emptyStore.monitoring ++ [⟨"F1", 5, [], 9⟩] :=
  C10_path_param_wins "F1" ⟨"OTHER", 5, []⟩ 9 Tailings.emptyStore
    (by decide)

end Tailings
